import Mathlib

/-!
Verification of the tool-orchestration and entity-memory core of the
`mcp-sf-jira` gateway (`python_servers/mcp_web_server.py`).

The Python code is shallowly embedded: JSON values become an inductive
`Json` type, Python `dict`s become insertion-ordered association lists
(`dictInsert` mirrors CPython assignment: an existing key keeps its
position and gets the new value, a new key is appended), network and
model calls become explicit outcome parameters, and `datetime.now()`
becomes an explicit `now` argument.  Fallible paths return `Except` or
`Option` mirroring the source's try/except blocks.
-/

namespace Mcp

/-- Model of a Python/JSON value as handled by `json.loads` / `json.dumps`.
Numbers are modelled as integers (the cached payloads relevant here carry
identifiers and names; no float arithmetic is performed on them). -/
inductive Json where
  | null : Json
  | bool (b : Bool) : Json
  | num (n : Int) : Json
  | str (s : String) : Json
  | arr (elems : List Json) : Json
  | obj (fields : List (String × Json)) : Json
deriving Repr

/-- First binding of key `k` in an association list, like Python dict lookup
(CPython dicts cannot hold duplicate keys, so first = only). -/
def pyGet {α : Type} (l : List (String × α)) (k : String) : Option α :=
  match l with
  | [] => none
  | (k', v) :: rest => if k' = k then some v else pyGet rest k

/-- CPython dict assignment `d[k] = v`: replace the value at an existing key
in place, otherwise append the new binding at the end. -/
def dictInsert {α : Type} (k : String) (v : α) (l : List (String × α)) :
    List (String × α) :=
  match l with
  | [] => [(k, v)]
  | (k', v') :: rest =>
      if k' = k then (k, v) :: rest else (k', v') :: dictInsert k v rest

/-- Python `dict.get(k, default)`. -/
def pyGetD (l : List (String × Json)) (k : String) (d : Json) : Json :=
  match pyGet l k with
  | some v => v
  | none => d

/-- Field access on a `Json` value that is expected to be an object;
`none` when the value is not an object or the key is absent (a Python
`.get` on a non-dict raises instead; call sites model that branch
explicitly). -/
def Json.getField : Json → String → Option Json
  | .obj fields, k => pyGet fields k
  | _, _ => none

/-- Python truthiness of a JSON value (`if x:`). -/
def pyTruthy : Json → Bool
  | .null => false
  | .bool b => b
  | .num n => n ≠ 0
  | .str s => s ≠ ""
  | .arr xs => !xs.isEmpty
  | .obj fs => !fs.isEmpty

/-- Truthiness of an `Option Json` as Python sees a possibly-missing value
(`None` is falsy). -/
def pyTruthyOpt : Option Json → Bool
  | none => false
  | some j => pyTruthy j

/-- A single-quote character, used when rebuilding the exact strings the
source produces with quoted interpolations. -/
def sq : String := String.singleton (Char.ofNat 39)

/-- Left brace as text. -/
def lbr : String := String.singleton (Char.ofNat 123)

/-- Right brace as text. -/
def rbr : String := String.singleton (Char.ofNat 125)

/-- Rendering of a JSON value the way a Python f-string renders it via
`str()`: strings appear bare, `None`/`True`/`False` capitalised.
Containers are rendered in a JSON-like shape (display only; no theorem
depends on the container rendering). -/
def pyStr : Json → String
  | .null => "None"
  | .bool true => "True"
  | .bool false => "False"
  | .num n => toString n
  | .str s => s
  | .arr elems =>
      "[" ++ String.intercalate ", "
        (elems.attach.map (fun e => pyStr e.1)) ++ "]"
  | .obj fields =>
      lbr ++ String.intercalate ", "
        (fields.attach.map (fun f => f.1.1 ++ ": " ++ pyStr f.1.2)) ++ rbr
decreasing_by
  · have := List.sizeOf_lt_of_mem e.2
    simp only [Json.arr.sizeOf_spec]
    omega
  · have h1 := List.sizeOf_lt_of_mem f.2
    have h2 : sizeOf f.1.2 < sizeOf f.1 := by
      obtain ⟨a, b⟩ := f.1
      simp only [Prod.mk.sizeOf_spec]
      omega
    simp only [Json.obj.sizeOf_spec]
    omega

/-- Number of bindings an association list holds under key `k`. -/
def keyCount {α : Type} (l : List (String × α)) (k : String) : Nat :=
  (l.filter (fun p => p.1 = k)).length

theorem pyGet_dictInsert_self {α : Type} (l : List (String × α)) (k : String)
    (v : α) : pyGet (dictInsert k v l) k = some v := by
  induction l with
  | nil => simp [dictInsert, pyGet]
  | cons hd tl ih =>
      obtain ⟨k', v'⟩ := hd
      by_cases h : k' = k
      · simp [dictInsert, h, pyGet]
      · simp [dictInsert, h, pyGet, ih]

theorem keyCount_cons {α : Type} (k' : String) (v' : α) (tl : List (String × α))
    (k : String) :
    keyCount ((k', v') :: tl) k
      = (if k' = k then 1 else 0) + keyCount tl k := by
  by_cases h : k' = k <;>
    simp [keyCount, List.filter_cons, h, Nat.add_comm]

theorem dictInsert_cons_eq {α : Type} (k : String) (v : α) (k' : String) (v' : α)
    (tl : List (String × α)) (h : k' = k) :
    dictInsert k v ((k', v') :: tl) = (k, v) :: tl := by
  simp [dictInsert, h]

theorem dictInsert_cons_ne {α : Type} (k : String) (v : α) (k' : String) (v' : α)
    (tl : List (String × α)) (h : ¬k' = k) :
    dictInsert k v ((k', v') :: tl) = (k', v') :: dictInsert k v tl := by
  simp [dictInsert, h]

theorem keyCount_eq_zero_of_not_mem {α : Type} (l : List (String × α)) (k : String)
    (h : k ∉ l.map Prod.fst) : keyCount l k = 0 := by
  induction l with
  | nil => simp [keyCount]
  | cons hd tl ih =>
      obtain ⟨k', v'⟩ := hd
      simp only [List.map_cons, List.mem_cons, not_or] at h
      rw [keyCount_cons, if_neg (fun he => h.1 he.symm), ih h.2]

theorem keyCount_dictInsert {α : Type} (l : List (String × α)) (k : String)
    (v : α) (hnd : (l.map Prod.fst).Nodup) :
    keyCount (dictInsert k v l) k = 1 := by
  induction l with
  | nil => simp [dictInsert, keyCount]
  | cons hd tl ih =>
      obtain ⟨k', v'⟩ := hd
      simp only [List.map_cons, List.nodup_cons] at hnd
      by_cases h : k' = k
      · subst h
        rw [dictInsert_cons_eq k' v k' v' tl rfl, keyCount_cons, if_pos rfl,
          keyCount_eq_zero_of_not_mem tl k' hnd.1]
      · rw [dictInsert_cons_ne k v k' v' tl h, keyCount_cons, if_neg h,
          ih hnd.2]

theorem mem_keys_dictInsert {α : Type} (l : List (String × α)) (k m : String)
    (v : α) (hm : m ∈ (dictInsert k v l).map Prod.fst) :
    m = k ∨ m ∈ l.map Prod.fst := by
  induction l with
  | nil => simpa [dictInsert] using hm
  | cons hd tl ih =>
      obtain ⟨k', v'⟩ := hd
      by_cases h : k' = k
      · subst h
        simpa [dictInsert] using hm
      · simp only [dictInsert, if_neg h, List.map_cons, List.mem_cons] at hm
        rcases hm with hm | hm
        · right; simp [hm]
        · rcases ih hm with h3 | h3
          · exact Or.inl h3
          · right; simp [h3]

theorem nodup_keys_dictInsert {α : Type} (l : List (String × α)) (k : String)
    (v : α) (hnd : (l.map Prod.fst).Nodup) :
    ((dictInsert k v l).map Prod.fst).Nodup := by
  induction l with
  | nil => simp [dictInsert]
  | cons hd tl ih =>
      obtain ⟨k', v'⟩ := hd
      simp only [List.map_cons, List.nodup_cons] at hnd
      by_cases h : k' = k
      · subst h
        rw [dictInsert_cons_eq k' v k' v' tl rfl]
        simp only [List.map_cons, List.nodup_cons]
        exact hnd
      · rw [dictInsert_cons_ne k v k' v' tl h]
        simp only [List.map_cons, List.nodup_cons]
        refine ⟨fun hmem => ?_, ih hnd.2⟩
        rcases mem_keys_dictInsert tl k k' v hmem with h3 | h3
        · exact h h3
        · exact hnd.1 h3

/-- Python `json.dumps` with its default separators (display only; no
theorem depends on the exact rendering).  String escaping is elided. -/
def Json.dumps : Json → String
  | .null => "null"
  | .bool true => "true"
  | .bool false => "false"
  | .num n => toString n
  | .str s => "\"" ++ s ++ "\""
  | .arr elems =>
      "[" ++ String.intercalate ", "
        (elems.attach.map (fun e => Json.dumps e.1)) ++ "]"
  | .obj fields =>
      lbr ++ String.intercalate ", "
        (fields.attach.map
          (fun f => "\"" ++ f.1.1 ++ "\": " ++ Json.dumps f.1.2)) ++ rbr
decreasing_by
  · have := List.sizeOf_lt_of_mem e.2
    simp only [Json.arr.sizeOf_spec]
    omega
  · have h1 := List.sizeOf_lt_of_mem f.2
    have h2 : sizeOf f.1.2 < sizeOf f.1 := by
      obtain ⟨a, b⟩ := f.1
      simp only [Prod.mk.sizeOf_spec]
      omega
    simp only [Json.obj.sizeOf_spec]
    omega

/-- Python substring test `needle in hay`.  String operations are
modelled on the underlying character lists so that they evaluate by
kernel reduction. -/
def pyIn (needle hay : String) : Bool :=
  decide (needle.data <:+: hay.data)

/-- Python `s.startswith(pre)` on the character lists. -/
def pyStartsWith (s pre : String) : Bool :=
  pre.data.isPrefixOf s.data

/-- Python `s.endswith(suf)` on the character lists. -/
def pyEndsWith (s suf : String) : Bool :=
  suf.data.isSuffixOf s.data

/-- Python `s.lower()` on the character lists (the messages involved are
ASCII). -/
def pyLower (s : String) : String :=
  ⟨s.data.map Char.toLower⟩

/-! ## Service registry (`MCPService`, `_connect_to_service`,
`_collect_available_tools`, `_execute_mcp_tool_http`,
`_call_mcp_tool_direct`) -/

/-- The `MCPService` dataclass.  `health_score` is a rational standing for
the Python float, which only ever holds exactly representable values here
(0.0 and 1.0). -/
structure MCPService where
  url : String
  connected : Bool
  last_activity : Option String
  error : Option String
  health_score : ℚ := 1
deriving Repr, DecidableEq

/-- Outcome of the HTTP `GET {url}/health` probe: a response with a status
code, or a transport-level exception with its message. -/
inductive ProbeOutcome where
  | response (status : Nat) : ProbeOutcome
  | connError (msg : String) : ProbeOutcome

/-- `_connect_to_service`: a 200 health response marks the service
connected with a cleared error and health 1.0; any other status raises
`Health check failed with status N`, and that exception (or a transport
error) marks the service disconnected with health 0.0 and the message
recorded. -/
def connectToService (svc : MCPService) (outcome : ProbeOutcome) :
    MCPService :=
  match outcome with
  | .response status =>
      if status = 200 then
        { svc with connected := true, error := none, health_score := 1 }
      else
        { svc with
          connected := false
          error := some ("Health check failed with status "
            ++ toString status)
          health_score := 0 }
  | .connError msg =>
      { svc with connected := false, error := some msg, health_score := 0 }

/-- One entry of `available_tools` after the Claude-format conversion in
`_get_service_tools`. -/
structure ToolSpec where
  name : String
  description : String
  input_schema : Json
deriving Repr

/-- `_collect_available_tools`: rebuild `available_tools` and
`tool_to_server` from scratch, taking tools only from connected services;
`tool_to_server[tool.name] = service` is a dict write, so a name claimed
by a later service overwrites an earlier one.  `toolsOf` stands for the
result of the (external) `_get_service_tools` HTTP discovery call, which
returns `[]` on its own failures. -/
def collectStep (toolsOf : String → List ToolSpec)
    (acc : List ToolSpec × List (String × String))
    (p : String × MCPService) : List ToolSpec × List (String × String) :=
  if p.2.connected then
    (acc.1 ++ toolsOf p.1,
     (toolsOf p.1).foldl (fun idx t => dictInsert t.name p.1 idx) acc.2)
  else acc

def collectAvailableTools (services : List (String × MCPService))
    (toolsOf : String → List ToolSpec) :
    List ToolSpec × List (String × String) :=
  services.foldl (collectStep toolsOf) ([], [])

/-- Outcome of an HTTP POST to `{url}/mcp/call`: a response carrying a
status and a parsed JSON body, or a client/timeout exception. -/
inductive HttpOutcome where
  | response (status : Nat) (body : Json) : HttpOutcome
  | clientError (msg : String) : HttpOutcome

/-- Content extraction used by `_execute_mcp_tool_http` on a 200 MCP
result: first content item's `text` when present, else a rendering of the
result. -/
def extractHttpContent (mcpResult : Json) : String :=
  match mcpResult with
  | .obj fields =>
      match pyGet fields "content" with
      | some (.arr (c :: _)) =>
          (match c with
           | .obj cf =>
               match pyGet cf "text" with
               | some (.str s) => s
               | some j => pyStr j
               | none => pyStr c
           | _ => pyStr c)
      | some (.arr []) => Json.dumps mcpResult
      | _ => Json.dumps mcpResult
  | _ => Json.dumps mcpResult

/-- `_execute_mcp_tool_http`: raises if the service is not connected;
otherwise stamps `last_activity` with the current time before issuing the
call, then returns the extracted text on a 200 result, raises
`MCP tool error: msg` on an error envelope, returns Python `None`
(modelled `Option.none`) when a 200 body has neither `result` nor
`error`, and raises `HTTP error: N` on a non-200 status.  No field other
than `last_activity` is touched. -/
def executeMcpToolHttp (serviceName : String) (svc : MCPService)
    (now : String) (outcome : HttpOutcome) :
    MCPService × Except String (Option String) :=
  if !svc.connected then
    (svc, .error ("Service " ++ serviceName ++ " not connected"))
  else
    let svc' := { svc with last_activity := some now }
    match outcome with
    | .clientError msg => (svc', .error msg)
    | .response status body =>
        if status = 200 then
          match Json.getField body "result" with
          | some mcpResult => (svc', .ok (some (extractHttpContent mcpResult)))
          | none =>
              match Json.getField body "error" with
              | some (.obj errFields) =>
                  (svc', .error ("MCP tool error: "
                    ++ pyStr (pyGetD errFields "message"
                        (.str "Unknown error"))))
              | some _ =>
                  (svc', .error "AttributeError: get on non-dict error")
              | none => (svc', .ok none)
        else
          (svc', .error ("HTTP error: " ++ toString status))

/-- `_call_mcp_tool_direct`: same envelope handling with finer error
classification; it reads the service only for its URL and never mutates
registry state (hence no `MCPService` in the result). -/
def callMcpToolDirect (outcome : HttpOutcome) :
    Except String (Option String) :=
  match outcome with
  | .clientError msg => .error msg
  | .response status body =>
      if status = 200 then
        match Json.getField body "result" with
        | some mcpResult =>
            (match mcpResult with
             | .obj fields =>
                 (match pyGet fields "content" with
                  | some (.arr (c :: _)) =>
                      (match c with
                       | .obj cf =>
                           (match pyGet cf "text" with
                            | some (.str s) => .ok (some s)
                            | some j => .ok (some (pyStr j))
                            | none => .ok (some (pyStr mcpResult)))
                       | _ => .ok (some (pyStr mcpResult)))
                  | _ => .ok (some (pyStr mcpResult)))
             | _ => .ok (some (pyStr mcpResult)))
        | none =>
            match Json.getField body "error" with
            | some (.obj errFields) =>
                let errMsg := pyStr (pyGetD errFields "message"
                  (.str "Unknown error"))
                let errCode := pyStr (pyGetD errFields "code" (.str "unknown"))
                if pyIn "required field" (pyLower errMsg) then
                  .error ("Missing required field: " ++ errMsg)
                else if pyIn "invalid" (pyLower errMsg) then
                  .error ("Invalid parameter: " ++ errMsg)
                else if pyIn "not found" (pyLower errMsg) then
                  .error ("Resource not found: " ++ errMsg)
                else
                  .error ("MCP tool error [" ++ errCode ++ "]: " ++ errMsg)
            | some _ => .error "AttributeError: get on non-dict error"
            | none => .ok none
      else
        .error ("HTTP error: " ++ toString status)

/-- `_call_mcp_tool`: raises `Service S not connected` when the service is
disconnected, otherwise delegates to `_call_mcp_tool_direct`. -/
def callMcpTool (serviceName : String) (svc : MCPService)
    (outcome : HttpOutcome) : Except String (Option String) :=
  if !svc.connected then
    .error ("Service " ++ serviceName ++ " not connected")
  else
    callMcpToolDirect outcome

/-! ## Complexity classifier (`_is_complex_task`) and chat routing -/

/-- The `complex_indicators` list of `_is_complex_task`, verbatim. -/
def complexIndicators : List String :=
  ["update the opportunity status",
   "create a jira task",
   "create a case",
   "link everything together",
   "then create",
   "also create",
   "and put that",
   "relate the case to",
   "apply the jira ticket",
   "multi-step",
   "workflow",
   "process",
   "first", "then", "next", "finally",
   "step 1", "step 2", "step 3",
   "opportunity is at risk",
   "implementation is at risk"]

/-- The always-complex phrases of the final `any(...)` in
`_is_complex_task`, verbatim. -/
def alwaysComplexPhrases : List String :=
  ["jordan jones", "critical migration", "walkmart",
   "update", "create", "link", "relate"]

/-- `_is_complex_task`: counts indicator substrings in the lower-cased
message and returns true when at least two occur or when any of the
always-complex phrases occurs. -/
def isComplexTask (message : String) : Bool :=
  let messageLower := pyLower message
  let complexCount :=
    (complexIndicators.filter (fun ind => pyIn ind messageLower)).length
  decide (complexCount ≥ 2)
    || alwaysComplexPhrases.any (fun p => pyIn p messageLower)

/-- Which processing path the `/api/chat` endpoint dispatches to. -/
inductive ChatRoute where
  | complexPath : ChatRoute
  | regularChat : ChatRoute
  | noAI : ChatRoute
deriving Repr, DecidableEq

/-- Routing logic of the `chat` endpoint: with an Anthropic client
configured, `_is_complex_task` decides between `_process_complex_task`
and `_process_chat_query`; without one the endpoint replies that no AI
service is available. -/
def chatRoute (anthropicAvailable : Bool) (message : String) : ChatRoute :=
  if anthropicAvailable then
    if isComplexTask message then .complexPath else .regularChat
  else .noAI

/-! ## Entity cache and extraction (`_cache_entities_from_result`,
`_cache_salesforce_entities`, `_cache_single_sf_record`,
`_cache_jira_entities`, `_cache_single_jira_issue`)

`self.entity_memory` and `self.context_memory` are initialised to `None`
and never reassigned anywhere in the program, so the Strands
`EntityMemory`/`ContextMemory` branches are dead code and the fallback
basic-cache branches always run; the embedding follows the live
branches. -/

/-- Dictionary state, used for `entity_cache` and `session_context`. -/
abbrev Dict := List (String × Json)

/-- Python `record.get(k, d)` on a record known to be a dict. -/
def recordGetD (record : Json) (k : String) (d : Json) : Json :=
  match Json.getField record k with
  | some v => v
  | none => d

/-- The ID-prefix classification of `_cache_single_sf_record`. -/
def sfTypeForId (recordId : String) : Option String :=
  if pyStartsWith recordId "006" then some "Opportunity"
  else if pyStartsWith recordId "500" then some "Case"
  else if pyStartsWith recordId "001" then some "Account"
  else if pyStartsWith recordId "003" then some "Contact"
  else none

/-- The `entity_data` dict literal written by `_cache_single_sf_record`. -/
def sfEntityData (recordType recordId : String) (record : Json)
    (now : String) : Json :=
  Json.obj
    [("type", .str recordType),
     ("id", .str recordId),
     ("data", record),
     ("cached_at", .str now)]

/-- The dict literal written by `_cache_single_jira_issue`. -/
def jiraEntityData (k issue : Json) (now : String) : Json :=
  Json.obj
    [("type", .str "Jira"),
     ("key", k),
     ("data", issue),
     ("cached_at", .str now)]

/-- Whether `record.get('Implementation_Status__c') == 'At Risk'`. -/
def isAtRiskOpp (record : Json) : Bool :=
  match Json.getField record "Implementation_Status__c" with
  | some (.str s) => s = "At Risk"
  | _ => false

/-- The `at_risk_data` dict literal; `none` models the `AttributeError`
raised when `record.get('Account', {})` yields a non-dict, which the
enclosing `except` swallows after the cache write already happened. -/
def atRiskEntry (record : Json) (recordId : String) : Option Json :=
  match recordGetD record "Account" (Json.obj []) with
  | .obj accountFields =>
      some (Json.obj
        [("id", .str recordId),
         ("name", recordGetD record "Name" .null),
         ("account", pyGetD accountFields "Name" .null),
         ("amount", recordGetD record "Amount" (.num 0)),
         ("account_id", recordGetD record "AccountId" .null)])
  | _ => none

/-- Appending to a named session-fact bucket: create the list if the key
is absent, append in place otherwise; a non-list value under the key
makes `.append` raise, which the enclosing `except` swallows leaving the
context unchanged. -/
def appendToBucket (ctx : Dict) (bucket : String) (entry : Json) : Dict :=
  match pyGet ctx bucket with
  | some (.arr xs) => dictInsert bucket (.arr (xs ++ [entry])) ctx
  | some _ => ctx
  | none => dictInsert bucket (.arr [entry]) ctx

/-- `_cache_single_sf_record`: classify the record by ID prefix, replace
the cache entry under `type:id` with a fresh `entity_data` dict, and for
at-risk opportunities append a summary to the `at_risk_opportunities`
session bucket.  A falsy/missing/malformed `Id` makes the whole call a
no-op (the `startswith` crash on a non-string `Id` is swallowed). -/
def cacheSingleSfRecord (now : String) (record : Json) (cache ctx : Dict) :
    Dict × Dict :=
  match Json.getField record "Id" with
  | some (.str recordId) =>
      if recordId = "" then (cache, ctx)
      else
        match sfTypeForId recordId with
        | some recordType =>
            let cache' := dictInsert (recordType ++ ":" ++ recordId)
              (sfEntityData recordType recordId record now) cache
            if recordType = "Opportunity" && isAtRiskOpp record then
              match atRiskEntry record recordId with
              | some entry =>
                  (cache', appendToBucket ctx "at_risk_opportunities" entry)
              | none => (cache', ctx)
            else (cache', ctx)
        | none => (cache, ctx)
  | _ => (cache, ctx)

/-- `_cache_salesforce_entities`: a list caches each dict element, a
single dict caches itself, anything else is ignored. -/
def cacheSalesforceEntities (now : String) (data : Json)
    (cache ctx : Dict) : Dict × Dict :=
  match data with
  | .arr records =>
      records.foldl
        (fun st r =>
          match r with
          | .obj _ => cacheSingleSfRecord now r st.1 st.2
          | _ => st)
        (cache, ctx)
  | .obj _ => cacheSingleSfRecord now data cache ctx
  | _ => (cache, ctx)

/-- Scalar JSON equality, modelling Python `==` between the hashable
scalar values that appear as entity types and status/priority fields. -/
def jsonScalarEqb : Json → Json → Bool
  | .null, .null => true
  | .bool a, .bool b => a = b
  | .num a, .num b => a = b
  | .str a, .str b => a = b
  | _, _ => false

/-- Python `x in [s1, s2, ...]` for a JSON value against string
literals. -/
def jsonIsOneOf (j : Json) (ss : List String) : Bool :=
  ss.any (fun s => jsonScalarEqb j (.str s))

/-- `_cache_single_jira_issue`: replace the cache entry under
`Jira:{key}` and, when the issue is high-priority or blocked, append a
summary to the `critical_jira_issues` session bucket.  A missing/falsy
`key` is a no-op; crashes while reading `fields` (non-dict values) are
swallowed after the cache write. -/
def cacheSingleJiraIssue (now : String) (issue : Json) (cache ctx : Dict) :
    Dict × Dict :=
  match issue with
  | .obj issueFields =>
      match pyGet issueFields "key" with
      | some k =>
          if !pyTruthy k then (cache, ctx)
          else
            let cache' := dictInsert ("Jira:" ++ pyStr k)
              (jiraEntityData k issue now) cache
            match pyGetD issueFields "fields" (Json.obj []) with
            | .obj ffs =>
                match pyGetD ffs "priority" (Json.obj []),
                    pyGetD ffs "status" (Json.obj []) with
                | .obj pfs, .obj sfs =>
                    let priority := pyGetD pfs "name" (.str "")
                    let status := pyGetD sfs "name" (.str "")
                    if jsonIsOneOf priority ["High", "Highest"]
                        || jsonIsOneOf status ["Blocked", "To Do"] then
                      let entry := Json.obj
                        [("key", k),
                         ("summary", pyGetD ffs "summary" (.str "")),
                         ("status", status),
                         ("priority", priority)]
                      (cache', appendToBucket ctx "critical_jira_issues" entry)
                    else (cache', ctx)
                | _, _ => (cache', ctx)
            | _ => (cache', ctx)
      | none => (cache, ctx)
  | _ => (cache, ctx)

/-- `_cache_jira_entities`: a dict with an `issues` list caches each
issue, a dict with a `key` caches itself, anything else is ignored. -/
def cacheJiraEntities (now : String) (data : Json) (cache ctx : Dict) :
    Dict × Dict :=
  match data with
  | .obj dataFields =>
      match pyGet dataFields "issues" with
      | some (.arr issues) =>
          issues.foldl
            (fun st i => cacheSingleJiraIssue now i st.1 st.2)
            (cache, ctx)
      | some _ => (cache, ctx)
      | none =>
          match pyGet dataFields "key" with
          | some _ => cacheSingleJiraIssue now data cache ctx
          | none => (cache, ctx)
  | _ => (cache, ctx)

/-- Tool names routed to the Salesforce caching path. -/
def sfCacheTools : List String := ["salesforce_query", "salesforce_get_record"]

/-- Tool names routed to the Jira caching path. -/
def jiraCacheTools : List String := ["jira_search_issues", "jira_get_issue"]

/-- `_cache_entities_from_result`: only results that look like JSON
(leading `[` or brace) are parsed; a `json.JSONDecodeError` (modelled by
the library parse function `parse` returning `none`) returns without
touching any state, and unknown tool names cache nothing.  All internal
exceptions are swallowed, so the function is total. -/
def cacheEntitiesFromResult (parse : String → Option Json) (now : String)
    (toolName : String) (result : String) (cache ctx : Dict) :
    Dict × Dict :=
  if pyStartsWith result "[" || pyStartsWith result lbr then
    match parse result with
    | none => (cache, ctx)
    | some data =>
        if sfCacheTools.contains toolName then
          cacheSalesforceEntities now data cache ctx
        else if jiraCacheTools.contains toolName then
          cacheJiraEntities now data cache ctx
        else (cache, ctx)
  else (cache, ctx)

/-! ## Context prompt (`_build_cached_context_prompt`) -/

/-- Lines contributed by one entry of the `at_risk_opportunities` bucket.
`Except.error` models the uncaught `KeyError`/`TypeError` that a
malformed entry raises out of `_build_cached_context_prompt` (the
function body has no try/except of its own). -/
def atRiskLines (cache : Dict) (opp : Json) : Except String (List String) :=
  match opp with
  | .obj oppFields =>
      match pyGet oppFields "id" with
      | none => .error "KeyError: id"
      | some oppId =>
          let cachedOpp := pyGet cache ("Opportunity:" ++ pyStr oppId)
          if pyTruthyOpt cachedOpp then
            match cachedOpp with
            | some c =>
                match Json.getField c "data" with
                | none => .error "KeyError: data"
                | some oppData =>
                    match oppData with
                    | .obj dataFields =>
                        let accountId := pyGetD dataFields "AccountId"
                          (.str "Unknown")
                        match pyGet oppFields "name" with
                        | none => .error "KeyError: name"
                        | some name =>
                          let l1 := "- Opportunity: " ++ sq ++ pyStr name
                            ++ sq ++ " (ID: " ++ pyStr oppId
                            ++ ", Account ID: " ++ pyStr accountId ++ ")"
                          let l2 := "  Status: At Risk, Account: "
                            ++ pyStr (pyGetD oppFields "account"
                                (.str "Unknown"))
                          let jiraProject := pyGetD dataFields
                            "Jira_Project_Key__c" .null
                          if pyTruthy jiraProject then
                            .ok [l1, l2,
                              "  Linked Jira Project: " ++ pyStr jiraProject]
                          else .ok [l1, l2]
                    | _ => .error "AttributeError: get on non-dict data"
            | none => .ok []
          else .ok []
  | _ => .error "TypeError: at-risk entry is not a dict"

/-- Lines contributed by one entry of the `critical_jira_issues`
bucket. -/
def criticalJiraLines (issue : Json) : Except String (List String) :=
  match issue with
  | .obj issueFields =>
      match pyGet issueFields "key", pyGet issueFields "summary",
          pyGet issueFields "status", pyGet issueFields "priority" with
      | some k, some s, some st, some p =>
          .ok ["- " ++ pyStr k ++ ": " ++ pyStr s,
               "  Status: " ++ pyStr st ++ ", Priority: " ++ pyStr p]
      | _, _, _, _ => .error "KeyError in critical jira entry"
  | _ => .error "TypeError: critical jira entry is not a dict"

/-- Sequenced accumulation of per-entry lines, mirroring the `for` loops
(the first raising entry aborts the whole call). -/
def foldLines (f : Json → Except String (List String)) :
    List Json → Except String (List String)
  | [] => .ok []
  | x :: rest => do
      let l ← f x
      let r ← foldLines f rest
      pure (l ++ r)

/-- The cache-key filter for the recently-cached-entities summary. -/
def recentEntityExcluded : List String :=
  ["Opportunity:Name:", "Case:Number:", "Case:JiraKey:", "Account:Name:"]

/-- The `recent_entities` comprehension: cache values whose key contains
a colon and does not start with a secondary-index marker. -/
def recentEntities (cache : Dict) : List Json :=
  (cache.filter
    (fun p => pyIn ":" p.1
      && !(recentEntityExcluded.any (fun q => pyStartsWith p.1 q)))).map
    Prod.snd

/-- The `entity_summary` counting dict: first occurrence of a type
appends a bucket, later occurrences increment it in place (dict
semantics).  `none` models the `KeyError`/`TypeError` on an entry without
a hashable `type`. -/
def entitySummary (entities : List Json) :
    Option (List (Json × Nat)) :=
  entities.foldlM
    (fun summary e =>
      match Json.getField e "type" with
      | some t =>
          match t with
          | .arr _ => none
          | .obj _ => none
          | _ =>
              if summary.any (fun p => jsonScalarEqb p.1 t) then
                some (summary.map
                  (fun p => if jsonScalarEqb p.1 t then (p.1, p.2 + 1) else p))
              else some (summary ++ [(t, 1)])
      | none => none)
    []

/-- The closing boilerplate lines appended when any context was
rendered. -/
def contextClosingLines : List String :=
  ["\nIMPORTANT: Use this cached context to make intelligent inferences about user requests.",
   "When users refer to " ++ sq ++ "the opportunity" ++ sq ++ ", "
     ++ sq ++ "that case" ++ sq
     ++ ", or similar references, use the cached context above.",
   "For activity creation, use the Account ID from cached opportunity data when the user refers to a previously discussed opportunity.",
   ""]

/-- `_build_cached_context_prompt`: renders the at-risk opportunities,
the critical Jira issues, and a per-kind count of recently cached
entities into one deterministic string; returns `""` when there is
nothing to show.  The only state it reads is `entity_cache` and the two
session buckets. -/
def buildCachedContextPrompt (cache ctx : Dict) : Except String String := do
  let atRiskVal := pyGetD ctx "at_risk_opportunities" (.arr [])
  let atRiskOpps ←
    match atRiskVal with
    | .arr xs => Except.ok xs
    | _ => Except.error "TypeError: at_risk_opportunities is not a list"
  let part1 ←
    if !atRiskOpps.isEmpty then do
      let ls ← foldLines (atRiskLines cache) atRiskOpps
      pure ("CACHED CONTEXT - AT-RISK OPPORTUNITIES:" :: ls)
    else pure []
  let criticalVal := pyGetD ctx "critical_jira_issues" (.arr [])
  let criticalJira ←
    match criticalVal with
    | .arr xs => Except.ok xs
    | _ => Except.error "TypeError: critical_jira_issues is not a list"
  let part2 ←
    if !criticalJira.isEmpty then do
      let ls ← foldLines criticalJiraLines criticalJira
      pure ("\nCACHED CONTEXT - CRITICAL JIRA ISSUES:" :: ls)
    else pure []
  let recents := recentEntities cache
  let part3 ←
    if !recents.isEmpty then
      match entitySummary recents with
      | some summary =>
          Except.ok
            (("\nCACHED ENTITIES AVAILABLE (" ++ toString recents.length
                ++ " total):")
              :: summary.map
                (fun p => "- " ++ toString p.2 ++ " " ++ pyStr p.1
                  ++ "(s) cached and available"))
      | none => Except.error "KeyError: type"
    else pure []
  let contextParts := part1 ++ part2 ++ part3
  if !contextParts.isEmpty then
    pure (String.intercalate "\n" (contextParts ++ contextClosingLines))
  else
    pure ""

/-! ## Persistence (`_save_cache_to_file`, `_load_cache_from_file`,
`_persist_caches`) and the per-turn conversation store -/

/-- One persisted JSON document slot; `none` is a missing file.  The
`json.dump`/`json.load` library pair is modelled by storing the parsed
value itself. -/
abbrev FileSlot := Option Json

/-- `_save_cache_to_file`: replaces the file content with the serialized
dict; an I/O failure is logged and swallowed, leaving the old content
(`ok = false`). -/
def saveCacheToFile (data : Dict) (ok : Bool) (slot : FileSlot) : FileSlot :=
  if ok then some (Json.obj data) else slot

/-- `_load_cache_from_file`: a missing or unreadable file yields `{}`;
otherwise the parsed dict is returned. -/
def loadCacheFromFile (slot : FileSlot) : Dict :=
  match slot with
  | some (.obj fields) => fields
  | some _ => []
  | none => []

/-- The two files `_persist_caches` writes. -/
structure FileStore where
  cacheFile : FileSlot
  contextFile : FileSlot
deriving Repr

/-- `_persist_caches`: write `entity_cache` to the cache file and
`session_context` to the context file. -/
def persistCaches (cache ctx : Dict) (okCache okCtx : Bool)
    (fs : FileStore) : FileStore :=
  { cacheFile := saveCacheToFile cache okCache fs.cacheFile
    contextFile := saveCacheToFile ctx okCtx fs.contextFile }

/-- A `conversation_history` message dict. -/
def convMsg (role content now : String) : Json :=
  Json.obj [("role", .str role), ("content", .str content),
    ("timestamp", .str now)]

/-- The store-conversation step of `_process_chat_query` (lines
1011-1019): append the user and assistant turns to
`session_context['conversation_history']` and trim to the most recent
20 entries.  A non-list value under the key makes `.append` raise, which
the enclosing `except` swallows leaving the context unchanged. -/
def storeConversation (ctx : Dict) (query fullResponse now : String) :
    Dict :=
  match pyGet ctx "conversation_history" with
  | some (.arr hist) =>
      let h1 := hist ++ [convMsg "user" query now,
        convMsg "assistant" fullResponse now]
      let h2 := if h1.length > 20 then h1.drop (h1.length - 20) else h1
      dictInsert "conversation_history" (.arr h2) ctx
  | some _ => ctx
  | none =>
      dictInsert "conversation_history"
        (.arr [convMsg "user" query now,
          convMsg "assistant" fullResponse now]) ctx

/-! ## Conversation loops (`_process_chat_query`,
`_process_enhanced_complex_task`)

The Anthropic model is abstracted as a function from the number of calls
made so far to the returned content list; tool transport is abstracted
by a function giving the HTTP outcome of each call.  The growing
`messages` list is write-only with respect to loop control (the model
sees it, but the model is already an arbitrary function of the call
index), so it is not carried in the state. -/

/-- One item of `response.content`. -/
inductive ContentItem where
  | text (s : String) : ContentItem
  | toolUse (id name : String) (input : Json) : ContentItem
deriving Repr

/-- A model response's content list. -/
abbrev Response := List ContentItem

/-- The shared environment of a conversation turn: the name-to-service
index, the registry, the transport outcomes, and the JSON parser used by
entity extraction. -/
structure ToolEnv where
  toolToServer : List (String × String)
  services : List (String × MCPService)
  callOutcome : String → String → Json → HttpOutcome
  parse : String → Option Json

/-- Tool dispatch as the loop body performs it: `tool_to_server.get`
with a falsy check raising `Tool N not found`, then `_call_mcp_tool`
(connected check plus `_call_mcp_tool_direct`). -/
def execTool (env : ToolEnv) (name : String) (input : Json) :
    Except String (Option String) :=
  match pyGet env.toolToServer name with
  | none => .error ("Tool " ++ name ++ " not found")
  | some server =>
      if server = "" then .error ("Tool " ++ name ++ " not found")
      else
        match pyGet env.services server with
        | none => .error ("KeyError: " ++ server)
        | some svc => callMcpTool server svc (env.callOutcome server name input)

/-- Mutable state of the model/tool round-trip loop.  `response` is the
current value of the Python `response` variable, `calls` the number of
model calls made so far, `iters` the number of completed `while`
iterations (`step_count` in the complex-task path). -/
structure LoopState where
  fullResponse : String
  processQuery : Bool
  response : Response
  calls : Nat
  iters : Nat
  cache : Dict
  ctx : Dict

/-- The `for content in response.content` body of `_process_chat_query`:
text items accumulate (with a `\n\n---\n\n` separator and the
`_format_response_text` cosmetic pass `fmt`), tool-use items dispatch the
tool, cache entities on success, make the follow-up model call, and
finish the turn when that call returns a single text block.  The
`len(response.content) == 1` checks read the *current* `response`
variable, which a tool-use item rebinds mid-iteration. -/
def chatProcessContent (fmt : String → String) (model : Nat → Response)
    (env : ToolEnv) (now : String) :
    List ContentItem → LoopState → LoopState
  | [], st => st
  | .text s :: rest, st =>
      let fr :=
        if st.fullResponse ≠ "" && !pyEndsWith st.fullResponse "\n" then
          st.fullResponse ++ "\n\n---\n\n"
        else st.fullResponse
      let pq := if st.response.length = 1 then false else st.processQuery
      chatProcessContent fmt model env now rest
        { st with fullResponse := fr ++ fmt s, processQuery := pq }
  | .toolUse _ name input :: rest, st =>
      match execTool env name input with
      | .ok result =>
          let cached :=
            match result with
            | some r => cacheEntitiesFromResult env.parse now name r
                st.cache st.ctx
            | none => (st.cache, st.ctx)
          let resp' := model st.calls
          let st' := { st with
            cache := cached.1
            ctx := cached.2
            response := resp'
            calls := st.calls + 1 }
          match resp' with
          | [.text t] =>
              let fr :=
                if st'.fullResponse ≠ "" && !pyEndsWith st'.fullResponse "\n"
                then st'.fullResponse ++ "\n\n"
                else st'.fullResponse
              chatProcessContent fmt model env now rest
                { st' with fullResponse := fr ++ t, processQuery := false }
          | _ => chatProcessContent fmt model env now rest st'
      | .error e =>
          let resp' := model st.calls
          let st' := { st with response := resp', calls := st.calls + 1 }
          match resp' with
          | [.text t] =>
              chatProcessContent fmt model env now rest
                { st' with
                  fullResponse := st'.fullResponse
                    ++ "I encountered an error: " ++ e ++ "\n" ++ t
                  processQuery := false }
          | _ => chatProcessContent fmt model env now rest st'

/-- The `while process_query:` loop of `_process_chat_query`.  The source
has no step ceiling here, so the embedding carries explicit fuel;
`none` means the loop was still running when the fuel ran out (for the
state that never changes, that is for every fuel, i.e. divergence). -/
def chatLoop (fmt : String → String) (model : Nat → Response)
    (env : ToolEnv) (now : String) : Nat → LoopState → Option LoopState
  | 0, st => if st.processQuery then none else some st
  | fuel + 1, st =>
      if st.processQuery then
        chatLoop fmt model env now fuel
          (chatProcessContent fmt model env now st.response
            { st with iters := st.iters + 1 })
      else some st

/-- Entry into the chat loop: the initial `response` is the first
`messages.create` call. -/
def initialLoopState (model : Nat → Response) (cache ctx : Dict) :
    LoopState :=
  { fullResponse := ""
    processQuery := true
    response := model 0
    calls := 1
    iters := 0
    cache := cache
    ctx := ctx }

/-- The `for content in response.content` body of
`_process_enhanced_complex_task`: as in the chat path but text
accumulates bare (no separators, no formatting pass) and tool errors are
reported as `Step N encountered an error`. -/
def complexProcessContent (model : Nat → Response) (env : ToolEnv)
    (now : String) : List ContentItem → LoopState → LoopState
  | [], st => st
  | .text s :: rest, st =>
      let pq := if st.response.length = 1 then false else st.processQuery
      complexProcessContent model env now rest
        { st with fullResponse := st.fullResponse ++ s, processQuery := pq }
  | .toolUse _ name input :: rest, st =>
      match execTool env name input with
      | .ok result =>
          let cached :=
            match result with
            | some r => cacheEntitiesFromResult env.parse now name r
                st.cache st.ctx
            | none => (st.cache, st.ctx)
          let resp' := model st.calls
          let st' := { st with
            cache := cached.1
            ctx := cached.2
            response := resp'
            calls := st.calls + 1 }
          match resp' with
          | [.text t] =>
              complexProcessContent model env now rest
                { st' with
                  fullResponse := st'.fullResponse ++ t
                  processQuery := false }
          | _ => complexProcessContent model env now rest st'
      | .error e =>
          let resp' := model st.calls
          let st' := { st with response := resp', calls := st.calls + 1 }
          match resp' with
          | [.text t] =>
              complexProcessContent model env now rest
                { st' with
                  fullResponse := st'.fullResponse
                    ++ "\nStep " ++ toString st'.iters
                    ++ " encountered an error: " ++ e ++ "\n" ++ t
                  processQuery := false }
          | _ => complexProcessContent model env now rest st'

/-- The hard ceiling `max_steps = 15` of
`_process_enhanced_complex_task`. -/
def maxSteps : Nat := 15

/-- The `while process_query and step_count < max_steps:` loop.  The
remaining-iterations argument starts at `maxSteps` and `iters`
(`step_count`) rises by one per iteration, which is exactly the source's
guard. -/
def complexLoop (model : Nat → Response) (env : ToolEnv) (now : String) :
    Nat → LoopState → LoopState
  | 0, st => st
  | fuel + 1, st =>
      if st.processQuery then
        complexLoop model env now fuel
          (complexProcessContent model env now st.response
            { st with iters := st.iters + 1 })
      else st

/-- The completion note appended after the loop whenever
`step_count >= max_steps`. -/
def completionNote (steps : Nat) : String :=
  "\n\nCompleted " ++ toString steps
    ++ " steps in complex workflow. Task processing complete."

/-- The complex-task loop end to end: initial model call, at most
`maxSteps` iterations, and the completion note when the ceiling was
used up. -/
def runComplexLoop (model : Nat → Response) (env : ToolEnv) (now : String)
    (cache ctx : Dict) : LoopState :=
  let final := complexLoop model env now maxSteps
    (initialLoopState model cache ctx)
  if final.iters ≥ maxSteps then
    { final with
      fullResponse := final.fullResponse ++ completionNote final.iters }
  else final

/-! ## Chat endpoint wiring (`chat`, `_process_chat_query` top level) -/

/-- `_process_chat_query` around the loop: the Strands-agent path when an
agent exists (its failure falls through), the no-AI and no-tools early
returns, the context prompt construction (whose exceptions escape, being
outside the `try`), and the `try/except` that converts any exception
from the model-call loop into the string
`I encountered an error processing your request: E`.  `Except.error`
models an exception escaping to the endpoint; `Option.none` models a
loop that never finishes. -/
def processChatQuery (strands : Option (Except String String))
    (anthropicAvailable : Bool) (availableTools : List ToolSpec)
    (fmt : String → String) (firstCall : Except String Response)
    (model : Nat → Response) (env : ToolEnv) (now : String) (fuel : Nat)
    (cache ctx : Dict) : Except String (Option String) :=
  match strands with
  | some (.ok s) => .ok (some s)
  | _ =>
      if !anthropicAvailable then
        .ok (some "No AI services available. Please configure ANTHROPIC_API_KEY or AWS credentials.")
      else if availableTools.isEmpty then
        .ok (some "No MCP tools available. Please check service connections.")
      else
        match buildCachedContextPrompt cache ctx with
        | .error e => .error e
        | .ok _ =>
            match firstCall with
            | .error e =>
                .ok (some ("I encountered an error processing your request: "
                  ++ e))
            | .ok resp =>
                match chatLoop fmt model env now fuel
                    { initialLoopState model cache ctx with response := resp }
                  with
                | none => .ok none
                | some st => .ok (some st.fullResponse)

/-- The fields of `ChatResponse` the error-handling claims are about. -/
structure ChatResponseModel where
  response : String
  success : Bool
  error : Option String
deriving Repr, DecidableEq

/-- The `chat` endpoint: reject when no Anthropic client is configured,
otherwise dispatch along `chatRoute` and wrap the processor's outcome —
a returned string becomes a `success=True` response, an escaped
exception becomes the apology response with `success=False` and the
error in the diagnostic field. -/
def chatEndpoint (anthropicAvailable : Bool) (message : String)
    (proc : ChatRoute → Except String (Option String)) :
    Option ChatResponseModel :=
  match chatRoute anthropicAvailable message with
  | .noAI =>
      some { response := "AI services not configured. Please add ANTHROPIC_API_KEY."
             success := false
             error := some "No AI services available" }
  | route =>
      match proc route with
      | .ok (some text) =>
          some { response := text, success := true, error := none }
      | .ok none => none
      | .error e =>
          some { response := "I encountered an error processing your request. Please try again."
                 success := false
                 error := some e }

/-! ## Theorems for the claims -/

theorem cacheSingleSfRecord_shape (now : String) (r : Json)
    (cache ctx : Dict) (recordId ty : String)
    (hid : Json.getField r "Id" = some (.str recordId))
    (hne : recordId ≠ "") (hty : sfTypeForId recordId = some ty) :
    ∃ ctx', cacheSingleSfRecord now r cache ctx
      = (dictInsert (ty ++ ":" ++ recordId)
          (sfEntityData ty recordId r now) cache, ctx') := by
  simp only [cacheSingleSfRecord, hid, if_neg hne, hty]
  split
  · split
    · exact ⟨_, rfl⟩
    · exact ⟨_, rfl⟩
  · exact ⟨_, rfl⟩

theorem cacheSingleJiraIssue_shape (now : String)
    (cache ctx : Dict) (ifs : List (String × Json)) (k : Json)
    (hkey : pyGet ifs "key" = some k) (htr : pyTruthy k = true) :
    ∃ ctx', cacheSingleJiraIssue now (Json.obj ifs) cache ctx
      = (dictInsert ("Jira:" ++ pyStr k)
          (jiraEntityData k (Json.obj ifs) now) cache, ctx') := by
  simp only [cacheSingleJiraIssue, hkey, htr, Bool.not_true,
    Bool.false_eq_true, if_false]
  split
  · split
    · split
      · exact ⟨_, rfl⟩
      · exact ⟨_, rfl⟩
    · exact ⟨_, rfl⟩
  · exact ⟨_, rfl⟩

/-- C2: writing a cached entity whose `(kind, primary_key)` pair is
already present leaves exactly one entry under that key, holding the
full latest payload and `cached_at` (no field-level merging), on both
the Salesforce-record and the Jira-issue caching paths. -/
theorem claim2_cache_write_replaces
    (cache ctx : Dict) (hnd : (cache.map Prod.fst).Nodup)
    (now1 now2 : String) (r1 r2 : Json)
    (recordId ty : String) (k : Json)
    (ifs1 ifs2 : List (String × Json))
    (h1 : Json.getField r1 "Id" = some (.str recordId))
    (h2 : Json.getField r2 "Id" = some (.str recordId))
    (hne : recordId ≠ "") (hty : sfTypeForId recordId = some ty)
    (hk1 : pyGet ifs1 "key" = some k)
    (hk2 : pyGet ifs2 "key" = some k)
    (htr : pyTruthy k = true) :
    (keyCount (cacheSingleSfRecord now2 r2
        (cacheSingleSfRecord now1 r1 cache ctx).1
        (cacheSingleSfRecord now1 r1 cache ctx).2).1
        (ty ++ ":" ++ recordId) = 1 ∧
      pyGet (cacheSingleSfRecord now2 r2
        (cacheSingleSfRecord now1 r1 cache ctx).1
        (cacheSingleSfRecord now1 r1 cache ctx).2).1
        (ty ++ ":" ++ recordId)
        = some (sfEntityData ty recordId r2 now2)) ∧
    (keyCount (cacheSingleJiraIssue now2 (Json.obj ifs2)
        (cacheSingleJiraIssue now1 (Json.obj ifs1) cache ctx).1
        (cacheSingleJiraIssue now1 (Json.obj ifs1) cache ctx).2).1
        ("Jira:" ++ pyStr k) = 1 ∧
      pyGet (cacheSingleJiraIssue now2 (Json.obj ifs2)
        (cacheSingleJiraIssue now1 (Json.obj ifs1) cache ctx).1
        (cacheSingleJiraIssue now1 (Json.obj ifs1) cache ctx).2).1
        ("Jira:" ++ pyStr k)
        = some (jiraEntityData k (Json.obj ifs2) now2)) := by
  constructor
  · obtain ⟨ctxA, heqA⟩ :=
      cacheSingleSfRecord_shape now1 r1 cache ctx recordId ty h1 hne hty
    obtain ⟨ctxB, heqB⟩ :=
      cacheSingleSfRecord_shape now2 r2
        (cacheSingleSfRecord now1 r1 cache ctx).1
        (cacheSingleSfRecord now1 r1 cache ctx).2 recordId ty h2 hne hty
    have hfstA : (cacheSingleSfRecord now1 r1 cache ctx).1
        = dictInsert (ty ++ ":" ++ recordId)
            (sfEntityData ty recordId r1 now1) cache := by rw [heqA]
    have hfstB : (cacheSingleSfRecord now2 r2
        (cacheSingleSfRecord now1 r1 cache ctx).1
        (cacheSingleSfRecord now1 r1 cache ctx).2).1
        = dictInsert (ty ++ ":" ++ recordId)
            (sfEntityData ty recordId r2 now2)
            (cacheSingleSfRecord now1 r1 cache ctx).1 := by rw [heqB]
    rw [hfstB, hfstA]
    refine ⟨keyCount_dictInsert _ _ _ ?_, pyGet_dictInsert_self _ _ _⟩
    exact nodup_keys_dictInsert cache _ _ hnd
  · obtain ⟨ctxA, heqA⟩ :=
      cacheSingleJiraIssue_shape now1 cache ctx ifs1 k hk1 htr
    obtain ⟨ctxB, heqB⟩ :=
      cacheSingleJiraIssue_shape now2
        (cacheSingleJiraIssue now1 (Json.obj ifs1) cache ctx).1
        (cacheSingleJiraIssue now1 (Json.obj ifs1) cache ctx).2
        ifs2 k hk2 htr
    have hfstA : (cacheSingleJiraIssue now1 (Json.obj ifs1) cache ctx).1
        = dictInsert ("Jira:" ++ pyStr k)
            (jiraEntityData k (Json.obj ifs1) now1) cache := by rw [heqA]
    have hfstB : (cacheSingleJiraIssue now2 (Json.obj ifs2)
        (cacheSingleJiraIssue now1 (Json.obj ifs1) cache ctx).1
        (cacheSingleJiraIssue now1 (Json.obj ifs1) cache ctx).2).1
        = dictInsert ("Jira:" ++ pyStr k)
            (jiraEntityData k (Json.obj ifs2) now2)
            (cacheSingleJiraIssue now1 (Json.obj ifs1) cache ctx).1 := by
      rw [heqB]
    rw [hfstB, hfstA]
    refine ⟨keyCount_dictInsert _ _ _ ?_, pyGet_dictInsert_self _ _ _⟩
    exact nodup_keys_dictInsert cache _ _ hnd

/-- C2 witness: a concrete opportunity record and Jira issue cached
twice each. -/
theorem claim2_cache_write_replaces_witness :
    (keyCount (cacheSingleSfRecord "t2"
        (Json.obj [("Id", .str "006X"), ("Name", .str "Big")])
        (cacheSingleSfRecord "t1" (Json.obj [("Id", .str "006X")]) [] []).1
        (cacheSingleSfRecord "t1" (Json.obj [("Id", .str "006X")]) [] []).2).1
        ("Opportunity" ++ ":" ++ "006X") = 1 ∧
      pyGet (cacheSingleSfRecord "t2"
        (Json.obj [("Id", .str "006X"), ("Name", .str "Big")])
        (cacheSingleSfRecord "t1" (Json.obj [("Id", .str "006X")]) [] []).1
        (cacheSingleSfRecord "t1" (Json.obj [("Id", .str "006X")]) [] []).2).1
        ("Opportunity" ++ ":" ++ "006X")
        = some (sfEntityData "Opportunity" "006X"
            (Json.obj [("Id", .str "006X"), ("Name", .str "Big")]) "t2")) ∧
    (keyCount (cacheSingleJiraIssue "t2"
        (Json.obj [("key", .str "TECH-1"), ("id", .str "9")])
        (cacheSingleJiraIssue "t1"
          (Json.obj [("key", .str "TECH-1")]) [] []).1
        (cacheSingleJiraIssue "t1"
          (Json.obj [("key", .str "TECH-1")]) [] []).2).1
        ("Jira:" ++ pyStr (.str "TECH-1")) = 1 ∧
      pyGet (cacheSingleJiraIssue "t2"
        (Json.obj [("key", .str "TECH-1"), ("id", .str "9")])
        (cacheSingleJiraIssue "t1"
          (Json.obj [("key", .str "TECH-1")]) [] []).1
        (cacheSingleJiraIssue "t1"
          (Json.obj [("key", .str "TECH-1")]) [] []).2).1
        ("Jira:" ++ pyStr (.str "TECH-1"))
        = some (jiraEntityData (.str "TECH-1")
            (Json.obj [("key", .str "TECH-1"), ("id", .str "9")]) "t2")) :=
  claim2_cache_write_replaces [] [] (by simp) "t1" "t2"
    (Json.obj [("Id", .str "006X")])
    (Json.obj [("Id", .str "006X"), ("Name", .str "Big")])
    "006X" "Opportunity" (.str "TECH-1")
    [("key", .str "TECH-1")]
    [("key", .str "TECH-1"), ("id", .str "9")]
    rfl rfl (by decide) (by decide) rfl rfl (by decide)

/-- C5: a tool result that is not parseable as JSON (the library parse
returns `none`, i.e. `json.JSONDecodeError`) makes
`_cache_entities_from_result` a no-op: entity cache and session facts
unchanged, no exception escaping (the function is total). -/
theorem claim5_malformed_result_noop (parse : String → Option Json)
    (now toolName result : String) (cache ctx : Dict)
    (hparse : parse result = none) :
    cacheEntitiesFromResult parse now toolName result cache ctx
      = (cache, ctx) := by
  unfold cacheEntitiesFromResult
  by_cases h : (pyStartsWith result "[" || pyStartsWith result lbr) = true
  · rw [if_pos h, hparse]
  · rw [if_neg h]

/-- C5 witness: a brace-led string the parser rejects leaves a concrete
state untouched. -/
theorem claim5_malformed_result_noop_witness :
    cacheEntitiesFromResult (fun _ => none) "t" "salesforce_query"
      (lbr ++ "oops") [("Account:001X", Json.null)] [("b", Json.null)]
      = ([("Account:001X", Json.null)], [("b", Json.null)]) :=
  claim5_malformed_result_noop (fun _ => none) "t" "salesforce_query"
    (lbr ++ "oops") [("Account:001X", Json.null)] [("b", Json.null)] rfl

/-- C7: persisting the entity cache and session context and loading the
files back reproduces both dicts exactly, and the transcript stored by a
completed chat turn never exceeds the 20-entry window. -/
theorem claim7_persist_roundtrip (cache ctx : Dict) (fs : FileStore)
    (query resp now : String) :
    loadCacheFromFile (persistCaches cache
        (storeConversation ctx query resp now) true true fs).cacheFile
      = cache ∧
    loadCacheFromFile (persistCaches cache
        (storeConversation ctx query resp now) true true fs).contextFile
      = storeConversation ctx query resp now ∧
    ∀ hist, pyGet (storeConversation ctx query resp now)
        "conversation_history" = some (.arr hist) → hist.length ≤ 20 := by
  refine ⟨rfl, rfl, ?_⟩
  intro hist hh
  cases hl : pyGet ctx "conversation_history" with
  | none =>
      simp only [storeConversation, hl, pyGet_dictInsert_self] at hh
      cases hh
      simp
  | some v =>
      cases v with
      | arr h0 =>
          simp only [storeConversation, hl, pyGet_dictInsert_self] at hh
          by_cases hlen :
              (h0 ++ [convMsg "user" query now,
                convMsg "assistant" resp now]).length > 20
          · rw [if_pos hlen] at hh
            cases hh
            simp only [List.length_drop]
            omega
          · rw [if_neg hlen] at hh
            cases hh
            omega
      | null => simp only [storeConversation, hl] at hh; simp at hh
      | bool b => simp only [storeConversation, hl] at hh; simp at hh
      | num n => simp only [storeConversation, hl] at hh; simp at hh
      | str s => simp only [storeConversation, hl] at hh; simp at hh
      | obj fs2 => simp only [storeConversation, hl] at hh; simp at hh

/-- C7 witness: a 21-message history plus one completed turn trims to
exactly 20 persisted messages, and both files round-trip. -/
theorem claim7_persist_roundtrip_witness :
    loadCacheFromFile (persistCaches [("Jira:TECH-1", Json.null)]
        (storeConversation
          [("conversation_history", Json.arr (List.replicate 21 Json.null))]
          "q" "r" "t") true true ⟨none, none⟩).cacheFile
      = [("Jira:TECH-1", Json.null)] ∧
    loadCacheFromFile (persistCaches [("Jira:TECH-1", Json.null)]
        (storeConversation
          [("conversation_history", Json.arr (List.replicate 21 Json.null))]
          "q" "r" "t") true true ⟨none, none⟩).contextFile
      = storeConversation
          [("conversation_history", Json.arr (List.replicate 21 Json.null))]
          "q" "r" "t" ∧
    (List.replicate 18 Json.null
      ++ [convMsg "user" "q" "t", convMsg "assistant" "r" "t"]).length
      ≤ 20 := by
  refine ⟨(claim7_persist_roundtrip _ _ _ _ _ _).1,
    (claim7_persist_roundtrip _ _ _ _ _ _).2.1,
    (claim7_persist_roundtrip
      [("Jira:TECH-1", Json.null)]
      [("conversation_history", Json.arr (List.replicate 21 Json.null))]
      ⟨none, none⟩ "q" "r" "t").2.2
      (List.replicate 18 Json.null
        ++ [convMsg "user" "q" "t", convMsg "assistant" "r" "t"]) ?_⟩
  rfl

/-- C9: `_build_cached_context_prompt` is a pure, deterministic function
of the entity cache and the two session-fact buckets it reads; states
agreeing on those produce identical output, so repeated calls without
intervening writes coincide and no clock or hidden state is involved. -/
theorem claim9_context_prompt_pure (cache ctx1 ctx2 : Dict)
    (h1 : pyGet ctx1 "at_risk_opportunities"
        = pyGet ctx2 "at_risk_opportunities")
    (h2 : pyGet ctx1 "critical_jira_issues"
        = pyGet ctx2 "critical_jira_issues") :
    buildCachedContextPrompt cache ctx1
      = buildCachedContextPrompt cache ctx2 := by
  unfold buildCachedContextPrompt
  simp only [pyGetD, h1, h2]

/-- C9 witness: two session contexts differing only in an unread key
give the same prompt over a concrete cache. -/
theorem claim9_context_prompt_pure_witness :
    buildCachedContextPrompt [("Jira:TECH-1", Json.null)]
        [("unrelated", Json.bool true)]
      = buildCachedContextPrompt [("Jira:TECH-1", Json.null)] [] :=
  claim9_context_prompt_pure [("Jira:TECH-1", Json.null)]
    [("unrelated", Json.bool true)] [] rfl rfl

/-- C10: any message whose lower-cased text contains one of the
always-complex phrases (`update`, `create`, `link`, `relate`, or the
demo names) is classified complex and routed by the chat endpoint to the
complex-task path, regardless of the indicator count. -/
theorem claim10_always_complex_routing (message : String)
    (h : alwaysComplexPhrases.any (fun p => pyIn p (pyLower message))
      = true) :
    isComplexTask message = true ∧ chatRoute true message = .complexPath := by
  have hc : isComplexTask message = true := by
    unfold isComplexTask
    simp only [h, Bool.or_true]
  refine ⟨hc, ?_⟩
  unfold chatRoute
  simp [hc]

/-- C10 witness: a single-indicator message containing `update` routes
to the complex path. -/
theorem claim10_always_complex_routing_witness :
    isComplexTask "Please update the record" = true ∧
      chatRoute true "Please update the record" = .complexPath :=
  claim10_always_complex_routing "Please update the record" (by decide)

theorem mem_dictInsert {α : Type} (l : List (String × α)) (k : String)
    (v : α) (p : String × α) (hp : p ∈ dictInsert k v l) :
    p = (k, v) ∨ p ∈ l := by
  induction l with
  | nil => simpa [dictInsert] using hp
  | cons hd tl ih =>
      obtain ⟨k', v'⟩ := hd
      by_cases h : k' = k
      · subst h
        rw [dictInsert_cons_eq k' v k' v' tl rfl] at hp
        rcases List.mem_cons.mp hp with h2 | h2
        · exact Or.inl h2
        · exact Or.inr (List.mem_cons_of_mem _ h2)
      · rw [dictInsert_cons_ne k v k' v' tl h] at hp
        rcases List.mem_cons.mp hp with h2 | h2
        · exact Or.inr (by simp [h2])
        · rcases ih h2 with h3 | h3
          · exact Or.inl h3
          · exact Or.inr (List.mem_cons_of_mem _ h3)

theorem mem_foldl_dictInsert (tools : List ToolSpec) (srv : String)
    (idx : List (String × String)) (p : String × String)
    (hp : p ∈ tools.foldl (fun idx t => dictInsert t.name srv idx) idx) :
    p ∈ idx ∨ p.2 = srv := by
  induction tools generalizing idx with
  | nil => exact Or.inl hp
  | cons t ts ih =>
      rcases ih _ hp with h | h
      · rcases mem_dictInsert _ _ _ _ h with h2 | h2
        · right
          rw [h2]
        · exact Or.inl h2
      · exact Or.inr h

theorem collect_aux (toolsOf : String → List ToolSpec)
    (services : List (String × MCPService))
    (acc : List ToolSpec × List (String × String)) :
    (∀ p ∈ (services.foldl (collectStep toolsOf) acc).2,
        p ∈ acc.2 ∨ ∃ ms, (p.2, ms) ∈ services ∧ ms.connected = true) ∧
    (∀ t ∈ (services.foldl (collectStep toolsOf) acc).1,
        t ∈ acc.1 ∨ ∃ srv ms, (srv, ms) ∈ services ∧ ms.connected = true
          ∧ t ∈ toolsOf srv) := by
  induction services generalizing acc with
  | nil =>
      exact ⟨fun p hp => Or.inl hp, fun t ht => Or.inl ht⟩
  | cons s ss ih =>
      constructor
      · intro p hp
        rcases (ih (collectStep toolsOf acc s)).1 p hp with h | ⟨ms, hmem, hc⟩
        · by_cases hc2 : s.2.connected = true
          · unfold collectStep at h
            rw [if_pos hc2] at h
            rcases mem_foldl_dictInsert _ _ _ _ h with h2 | h2
            · exact Or.inl h2
            · exact Or.inr ⟨s.2, by simp [h2], hc2⟩
          · unfold collectStep at h
            rw [if_neg hc2] at h
            exact Or.inl h
        · exact Or.inr ⟨ms, List.mem_cons_of_mem _ hmem, hc⟩
      · intro t ht
        rcases (ih (collectStep toolsOf acc s)).2 t ht with h | ⟨srv, ms, hmem, hc, htool⟩
        · by_cases hc2 : s.2.connected = true
          · unfold collectStep at h
            rw [if_pos hc2] at h
            rcases List.mem_append.mp h with h2 | h2
            · exact Or.inl h2
            · exact Or.inr ⟨s.1, s.2, by simp, hc2, h2⟩
          · unfold collectStep at h
            rw [if_neg hc2] at h
            exact Or.inl h
        · exact Or.inr ⟨srv, ms, List.mem_cons_of_mem _ hmem, hc, htool⟩

/-- C4: a 200 probe marks the service connected with health 1.0 and a
cleared error; a failed probe (any non-200 status, such as 500, or a
transport exception) marks it disconnected with health 0.0 and the
error recorded; after the discovery pass rebuild, every entry of the
name-to-service index and every catalogued tool stems from a connected
service, so a disconnected service owns nothing in either. -/
theorem claim4_probe_and_catalog (svc : MCPService) (status : Nat)
    (hst : status ≠ 200) (msg : String)
    (services : List (String × MCPService))
    (toolsOf : String → List ToolSpec) :
    connectToService svc (.response 200)
      = { svc with connected := true, error := none, health_score := 1 } ∧
    connectToService svc (.response status)
      = { svc with
          connected := false
          error := some ("Health check failed with status "
            ++ toString status)
          health_score := 0 } ∧
    connectToService svc (.connError msg)
      = { svc with
          connected := false
          error := some msg
          health_score := 0 } ∧
    (∀ p ∈ (collectAvailableTools services toolsOf).2,
        ∃ ms, (p.2, ms) ∈ services ∧ ms.connected = true) ∧
    (∀ t ∈ (collectAvailableTools services toolsOf).1,
        ∃ srv ms, (srv, ms) ∈ services ∧ ms.connected = true
          ∧ t ∈ toolsOf srv) := by
  refine ⟨rfl, by simp [connectToService, hst], rfl, ?_, ?_⟩
  · intro p hp
    rcases (collect_aux toolsOf services ([], [])).1 p hp with h | h
    · simp at h
    · exact h
  · intro t ht
    rcases (collect_aux toolsOf services ([], [])).2 t ht with h | h
    · simp at h
    · exact h

/-- Concrete services and discovery results used by witnesses. -/
def trackerSvc : MCPService :=
  { url := "http://tracker:8002"
    connected := false
    last_activity := none
    error := none
    health_score := 1 }

def connSvc : MCPService :=
  { url := "u1"
    connected := true
    last_activity := none
    error := none
    health_score := 1 }

def downSvc : MCPService :=
  { url := "u2"
    connected := false
    last_activity := none
    error := some "down"
    health_score := 0 }

def demoServices : List (String × MCPService) :=
  [("salesforce", connSvc), ("jira", downSvc)]

def demoToolsOf : String → List ToolSpec := fun s =>
  if s = "salesforce" then
    [{ name := "salesforce_query"
       description := "q"
       input_schema := Json.obj [] }]
  else
    [{ name := "jira_search_issues"
       description := "j"
       input_schema := Json.obj [] }]

/-- C4 witness: the probe equations at status 500 and a two-service
registry whose `jira` service is disconnected. -/
theorem claim4_probe_and_catalog_witness :
    connectToService trackerSvc (.response 200)
      = { trackerSvc with
          connected := true
          error := none
          health_score := 1 } ∧
    connectToService trackerSvc (.response 500)
      = { trackerSvc with
          connected := false
          error := some ("Health check failed with status "
            ++ toString 500)
          health_score := 0 } ∧
    connectToService trackerSvc (.connError "timeout")
      = { trackerSvc with
          connected := false
          error := some "timeout"
          health_score := 0 } ∧
    (∀ p ∈ (collectAvailableTools demoServices demoToolsOf).2,
        ∃ ms, (p.2, ms) ∈ demoServices ∧ ms.connected = true) ∧
    (∀ t ∈ (collectAvailableTools demoServices demoToolsOf).1,
        ∃ srv ms, (srv, ms) ∈ demoServices ∧ ms.connected = true
          ∧ t ∈ demoToolsOf srv) :=
  claim4_probe_and_catalog trackerSvc 500 (by decide) "timeout"
    demoServices demoToolsOf

/-- A successful MCP envelope whose first content item is `text: ok`. -/
def okBody : Json :=
  Json.obj [("result", Json.obj [("content",
    Json.arr [Json.obj [("text", Json.str "ok")]])])]

theorem executeMcpToolHttp_connected_fst (serviceName : String)
    (svc : MCPService) (now : String) (outcome : HttpOutcome)
    (h : svc.connected = true) :
    (executeMcpToolHttp serviceName svc now outcome).1
      = { svc with last_activity := some now } := by
  unfold executeMcpToolHttp
  rw [h]
  simp only [Bool.not_true, Bool.false_eq_true, if_false]
  repeat' split
  all_goals rfl

/-- C8 counterexample: on a connected service with health 1.0, a failed
invocation (HTTP 500) leaves `health_score` at 1.0 instead of decaying
it to `max(0.0, 1.0 - 0.2) = 0.8`, and on a connected service with
health 0.5 a successful invocation leaves 0.5 instead of
`min(1.0, 0.5 + 0.1) = 0.6`: tool invocation adjusts no health score. -/
theorem claim8_counterexample :
    (executeMcpToolHttp "jira" connSvc "12:00:00"
        (.response 500 (Json.obj []))).1.health_score = 1 ∧
    (executeMcpToolHttp "jira" connSvc "12:00:00"
        (.response 500 (Json.obj []))).2 = .error ("HTTP error: " ++ toString 500) ∧
    ¬ ((1 : ℚ) = max 0 (1 - 2/10)) ∧
    (executeMcpToolHttp "jira" { connSvc with health_score := 1/2 }
        "12:00:00" (.response 200 okBody)).1.health_score = 1/2 ∧
    (executeMcpToolHttp "jira" { connSvc with health_score := 1/2 }
        "12:00:00" (.response 200 okBody)).2 = .ok (some "ok") ∧
    ¬ ((1/2 : ℚ) = min 1 (1/2 + 1/10)) := by
  refine ⟨rfl, rfl, by norm_num, rfl, rfl, by norm_num⟩

/-- C8 amended: `_execute_mcp_tool_http` never touches `health_score`,
`connected` or `error`; it stamps `last_activity` at the start of every
invocation attempt against a connected service (success or failure
alike), and raises without touching anything on a disconnected one
(`_call_mcp_tool_direct` reads no registry state at all, as its type
shows). -/
theorem claim8_no_health_adjustment (serviceName : String)
    (svc : MCPService) (now : String) (outcome : HttpOutcome) :
    (executeMcpToolHttp serviceName svc now outcome).1.health_score
      = svc.health_score ∧
    (executeMcpToolHttp serviceName svc now outcome).1.connected
      = svc.connected ∧
    (executeMcpToolHttp serviceName svc now outcome).1.error = svc.error ∧
    (svc.connected = true →
      (executeMcpToolHttp serviceName svc now outcome).1.last_activity
        = some now) ∧
    (svc.connected = false →
      executeMcpToolHttp serviceName svc now outcome
        = (svc, .error ("Service " ++ serviceName ++ " not connected"))) := by
  cases hc : svc.connected with
  | true =>
      have hr :=
        executeMcpToolHttp_connected_fst serviceName svc now outcome hc
      rw [hr]
      refine ⟨rfl, hc, rfl, fun _ => rfl, ?_⟩
      intro hf
      exact absurd hf (by decide)
  | false =>
      have hu : executeMcpToolHttp serviceName svc now outcome
          = (svc, .error ("Service " ++ serviceName ++ " not connected")) := by
        unfold executeMcpToolHttp
        rw [hc]
        rfl
      rw [hu]
      refine ⟨rfl, hc, rfl, ?_, fun _ => rfl⟩
      intro ht
      exact absurd ht (by decide)

/-- C8 amended witness: one connected and one disconnected concrete
invocation. -/
theorem claim8_no_health_adjustment_witness :
    ((executeMcpToolHttp "jira" connSvc "t" (.clientError "boom")).1.health_score
      = connSvc.health_score ∧
     (executeMcpToolHttp "jira" connSvc "t"
        (.clientError "boom")).1.last_activity = some "t") ∧
    executeMcpToolHttp "jira" downSvc "t" (.clientError "boom")
      = (downSvc, .error ("Service " ++ "jira" ++ " not connected")) :=
  ⟨⟨(claim8_no_health_adjustment "jira" connSvc "t" (.clientError "boom")).1,
    (claim8_no_health_adjustment "jira" connSvc "t"
      (.clientError "boom")).2.2.2.1 rfl⟩,
   (claim8_no_health_adjustment "jira" downSvc "t"
     (.clientError "boom")).2.2.2.2 rfl⟩

/-- A tool environment whose single tool `t` always succeeds with the
text `ok`. -/
def stubEnv : ToolEnv :=
  { toolToServer := [("t", "jira")]
    services := [("jira", connSvc)]
    callOutcome := fun _ _ _ => .response 200 okBody
    parse := fun _ => none }

/-- A model that requests tool `t` on its first 20 calls and then
finishes with a single text block. -/
def loopingModel : Nat → Response := fun k =>
  if k < 20 then [.toolUse "tu" "t" Json.null] else [.text "done"]

/-- C1 counterexample: a regular chat conversation
(`_process_chat_query`) that runs 20 model/tool round-trip iterations
before terminating — more than the claimed hard ceiling of 15 — because
the regular chat loop carries no step ceiling at all. -/
theorem claim1_counterexample :
    ((chatLoop (fun s => s) loopingModel stubEnv "t" 25
        (initialLoopState loopingModel [] [])).map
      (fun st => st.iters)) = some 20 ∧ ¬ (20 ≤ 15) := by
  constructor
  · rfl
  · decide

theorem complexProcessContent_iters (model : Nat → Response)
    (env : ToolEnv) (now : String) (items : List ContentItem)
    (st : LoopState) :
    (complexProcessContent model env now items st).iters = st.iters := by
  induction items generalizing st with
  | nil => rfl
  | cons item rest ih =>
      cases item with
      | text s => exact ih _
      | toolUse i n inp =>
          simp only [complexProcessContent]
          repeat' split
          all_goals exact ih _

theorem complexLoop_iters (model : Nat → Response) (env : ToolEnv)
    (now : String) : ∀ (fuel : Nat) (st : LoopState),
    (complexLoop model env now fuel st).iters ≤ st.iters + fuel ∧
    ((complexLoop model env now fuel st).processQuery = true →
      (complexLoop model env now fuel st).iters = st.iters + fuel) := by
  intro fuel
  induction fuel with
  | zero =>
      intro st
      exact ⟨Nat.le_refl _, fun _ => rfl⟩
  | succ n ih =>
      intro st
      by_cases hpq : st.processQuery = true
      · have hstep :
            complexLoop model env now (n + 1) st
              = complexLoop model env now n
                  (complexProcessContent model env now st.response
                    { st with iters := st.iters + 1 }) := by
          simp only [complexLoop, hpq, if_true]
        rw [hstep]
        have h1 := (ih (complexProcessContent model env now st.response
          { st with iters := st.iters + 1 })).1
        have h2 := (ih (complexProcessContent model env now st.response
          { st with iters := st.iters + 1 })).2
        rw [complexProcessContent_iters] at h1 h2
        dsimp only at h1 h2
        constructor
        · omega
        · intro hq
          rw [h2 hq]
          omega
      · have hpq' : st.processQuery = false := by
          cases hb : st.processQuery
          · rfl
          · exact absurd hb hpq
        have hstep : complexLoop model env now (n + 1) st = st := by
          simp [complexLoop, hpq']
        rw [hstep]
        exact ⟨Nat.le_add_right _ _, fun hq => absurd hq hpq⟩

/-- C1 amended: only the complex-task loop
(`_process_enhanced_complex_task`) carries the 15-step hard ceiling: it
performs at most 15 iterations, and when it stops with the model still
requesting work (`process_query` still true) the returned text is the
accumulated text followed by the completion note
`Completed 15 steps in complex workflow. Task processing complete.`;
the regular chat loop has no ceiling (see the counterexample). -/
theorem claim1_complex_ceiling (model : Nat → Response) (env : ToolEnv)
    (now : String) (cache ctx : Dict) :
    (runComplexLoop model env now cache ctx).iters ≤ 15 ∧
    ((runComplexLoop model env now cache ctx).processQuery = true →
      ∃ pre, (runComplexLoop model env now cache ctx).fullResponse
        = pre ++ completionNote 15) := by
  have h := complexLoop_iters model env now maxSteps
    (initialLoopState model cache ctx)
  have hinit : (initialLoopState model cache ctx).iters = 0 := rfl
  rw [hinit] at h
  have hms : maxSteps = 15 := rfl
  unfold runComplexLoop
  by_cases hge :
      (complexLoop model env now maxSteps
        (initialLoopState model cache ctx)).iters ≥ maxSteps
  · rw [if_pos hge]
    have hle := h.1
    constructor
    · dsimp only
      omega
    · intro hq
      refine ⟨(complexLoop model env now maxSteps
        (initialLoopState model cache ctx)).fullResponse, ?_⟩
      have h15 : (complexLoop model env now maxSteps
          (initialLoopState model cache ctx)).iters = 15 := by omega
      dsimp only
      rw [h15]
  · rw [if_neg hge]
    have hle := h.1
    constructor
    · omega
    · intro hq
      exfalso
      have := h.2 hq
      omega

/-- C1 amended witness: a model that always requests another tool call
exhausts the ceiling after exactly 15 steps and the reply carries the
completion note. -/
theorem claim1_complex_ceiling_witness :
    (runComplexLoop (fun _ => [.toolUse "tu" "t" Json.null]) stubEnv "t"
      [] []).iters ≤ 15 ∧
    ∃ pre, (runComplexLoop (fun _ => [.toolUse "tu" "t" Json.null])
        stubEnv "t" [] []).fullResponse = pre ++ completionNote 15 :=
  ⟨(claim1_complex_ceiling (fun _ => [.toolUse "tu" "t" Json.null])
      stubEnv "t" [] []).1,
   (claim1_complex_ceiling (fun _ => [.toolUse "tu" "t" Json.null])
      stubEnv "t" [] []).2 (by decide)⟩

/-- C3 (code bug): a model response with an empty content list makes the
`while process_query:` loop of `_process_chat_query` spin forever — the
`for` body never executes, no state changes, no further model or tool
calls are made, and no reply is ever produced — whereas the spec
prescribes an immediate empty-text completion. -/
theorem claim3_empty_response_loops_forever (fmt : String → String)
    (model : Nat → Response) (env : ToolEnv) (now : String) :
    ∀ (fuel : Nat) (cache ctx : Dict),
    chatLoop fmt model env now fuel
      { initialLoopState model cache ctx with response := [] } = none := by
  have h : ∀ (fuel : Nat) (st : LoopState), st.processQuery = true →
      st.response = [] → chatLoop fmt model env now fuel st = none := by
    intro fuel
    induction fuel with
    | zero =>
        intro st hpq hresp
        simp [chatLoop, hpq]
    | succ n ih =>
        intro st hpq hresp
        simp only [chatLoop, hpq, if_true]
        rw [hresp]
        exact ih _ rfl rfl
  intro fuel cache ctx
  exact h fuel _ rfl rfl

/-- C6 counterexample: when the model call itself fails (`boom`) on an
ordinary chat message, the caller receives `success = true`, no
diagnostic error field, and the error text inlined in the reply — not
the claimed failed response. -/
theorem claim6_counterexample :
    chatEndpoint true "hello there"
        (fun _ => processChatQuery none true (demoToolsOf "salesforce")
          (fun s => s) (.error "boom") (fun _ => []) stubEnv "t" 5 [] [])
      = some
          { response := "I encountered an error processing your request: boom"
            success := true
            error := none } := by
  rfl

/-- C6 amended: a model-call failure is caught inside
`_process_chat_query` and surfaced as an ordinary reply string
`I encountered an error processing your request: E` with
`success = true` and an empty diagnostic field; only an exception that
escapes the processing function (for example from context-prompt
construction) produces the failed response with the generic apology and
the real error in the diagnostic field. -/
theorem claim6_model_error_inlined (e msg : String)
    (tools : List ToolSpec) (htools : tools.isEmpty = false)
    (fmt : String → String) (model : Nat → Response) (env : ToolEnv)
    (now : String) (fuel : Nat)
    (hroute : isComplexTask msg = false) :
    chatEndpoint true msg
        (fun _ => processChatQuery none true tools fmt (.error e) model env
          now fuel [] [])
      = some
          { response := "I encountered an error processing your request: "
              ++ e
            success := true
            error := none } ∧
    chatEndpoint true msg (fun _ => .error e)
      = some
          { response := "I encountered an error processing your request. Please try again."
            success := false
            error := some e } := by
  have hpc : processChatQuery none true tools fmt (.error e) model env
      now fuel [] []
      = .ok (some ("I encountered an error processing your request: "
          ++ e)) := by
    unfold processChatQuery
    simp only [Bool.not_true, Bool.false_eq_true, if_false, htools]
    rfl
  have hr : chatRoute true msg = .regularChat := by
    unfold chatRoute
    simp [hroute]
  constructor
  · unfold chatEndpoint
    rw [hr, hpc]
  · unfold chatEndpoint
    rw [hr]

/-- C6 amended witness: the two endpoint behaviours at concrete
inputs. -/
theorem claim6_model_error_inlined_witness :
    chatEndpoint true "hi"
        (fun _ => processChatQuery none true (demoToolsOf "salesforce")
          (fun s => s) (.error "boom") (fun _ => []) stubEnv "t" 5 [] [])
      = some
          { response := "I encountered an error processing your request: "
              ++ "boom"
            success := true
            error := none } ∧
    chatEndpoint true "hi" (fun _ => .error "boom")
      = some
          { response := "I encountered an error processing your request. Please try again."
            success := false
            error := some "boom" } :=
  claim6_model_error_inlined "boom" "hi" (demoToolsOf "salesforce")
    (by decide) (fun s => s) (fun _ => []) stubEnv "t" 5 (by decide)

end Mcp
